import Mathlib

/-!
# Verification of the StatsbombReader feature / discipline / modeling / archetype pipeline

Shallow embedding of the core pipeline of the repository:

* `src/discipline.py`   — `DisciplineAnalyzer` (spatial foul grid, thirds, lanes)
* `src/features.py`     — `PlaystyleFeatureExtractor` (PPDA, possession directness)
* `src/modeling_zone_nb.py` — `ZoneNBModeler` (per-zone NB fitting policy, prediction)
* `src/reader/categorizer.py` — axis/overlay categorization
* `src/reader/archetypes.py`  — `derive_archetype`

Numeric values are modelled with `ℚ` (the Python code computes with floats; all
thresholds and the concrete inputs used below are exactly representable).
Python's `int(q)` truncates toward zero, which we model explicitly.
-/

namespace StatsbombReader

/-- Python `int(q)`: truncation toward zero (floor for nonnegative, ceil for negative). -/
def pyInt (q : ℚ) : ℤ := if 0 ≤ q then ⌊q⌋ else ⌈q⌉

/-! ## Discipline: spatial grid (src/discipline.py)

`DisciplineAnalyzer` with the default configuration: `x_bins = 5`, `y_bins = 3`,
`field_length = 120.0`, `field_width = 80.0`, hence `zone_length = 24` and
`zone_width = 80/3`.
-/

/-- `x_zone = max(0, min(int(x / zone_length), x_bins - 1))` from
`DisciplineAnalyzer.get_zone_from_location` / `_extract_spatial_features`
(`zone_length = 120/5 = 24`). -/
def xZoneInt (x : ℚ) : ℤ := max 0 (min (pyInt (x / 24)) 4)

/-- `y_zone = max(0, min(int(y / zone_width), y_bins - 1))` with
`zone_width = 80/3`. -/
def yZoneInt (y : ℚ) : ℤ := max 0 (min (pyInt (y / (80 / 3))) 2)

theorem xZoneInt_lt (x : ℚ) : (xZoneInt x).toNat < 5 := by
  have h : xZoneInt x ≤ 4 :=
    max_le (by norm_num) (min_le_right _ _)
  omega

theorem yZoneInt_lt (y : ℚ) : (yZoneInt y).toNat < 3 := by
  have h : yZoneInt y ≤ 2 :=
    max_le (by norm_num) (min_le_right _ _)
  omega

/-- Zone assignment `DisciplineAnalyzer.get_zone_from_location`, as a pair of
bounded indices. -/
def getZoneFromLocation (x y : ℚ) : Fin 5 × Fin 3 :=
  (⟨(xZoneInt x).toNat, xZoneInt_lt x⟩, ⟨(yZoneInt y).toNat, yZoneInt_lt y⟩)

/-- One foul event as seen by `_extract_spatial_features`: only its (optional)
location matters.  A "usable location" in the source is a list of length ≥ 2;
we model it as an optional coordinate pair. -/
structure FoulEvent where
  location : Option (ℚ × ℚ)
deriving Repr, DecidableEq

/-- Accumulator state of the loop in `_extract_spatial_features`. -/
structure SpatialState where
  grid : Fin 5 → Fin 3 → ℕ
  defThird : ℕ
  midThird : ℕ
  attThird : ℕ
  leftFouls : ℕ
  centerFouls : ℕ
  rightFouls : ℕ
  located : ℕ

/-- Initial state: all 15 `foul_grid_x{x}_y{y}` cells and all counters zero. -/
def SpatialState.init : SpatialState :=
  ⟨fun _ _ => 0, 0, 0, 0, 0, 0, 0, 0⟩

/-- Loop body of `_extract_spatial_features` for one foul event.  A foul with a
usable location increments `located_fouls`, exactly one grid cell, one
length-third counter (`x < 40` / `x < 80` / else) and one width-lane counter
(`y < 80/3` / `y < 160/3` / else); a foul without location changes nothing. -/
def spatialStep (st : SpatialState) (e : FoulEvent) : SpatialState :=
  match e.location with
  | none => st
  | some (x, y) =>
      let z := getZoneFromLocation x y
      { st with
        located := st.located + 1
        grid := fun i j =>
          if i = z.1 ∧ j = z.2 then st.grid i j + 1 else st.grid i j
        defThird := if x < 40 then st.defThird + 1 else st.defThird
        midThird := if ¬ x < 40 ∧ x < 80 then st.midThird + 1 else st.midThird
        attThird := if ¬ x < 40 ∧ ¬ x < 80 then st.attThird + 1 else st.attThird
        leftFouls := if y < 80 / 3 then st.leftFouls + 1 else st.leftFouls
        centerFouls :=
          if ¬ y < 80 / 3 ∧ y < 2 * 80 / 3 then st.centerFouls + 1 else st.centerFouls
        rightFouls :=
          if ¬ y < 80 / 3 ∧ ¬ y < 2 * 80 / 3 then st.rightFouls + 1 else st.rightFouls }

/-- `_extract_spatial_features` restricted to the loop over foul events. -/
def extractSpatialFeatures (fouls : List FoulEvent) : SpatialState :=
  fouls.foldl spatialStep SpatialState.init

/-- Sum of the 15 `foul_grid_x{x}_y{y}` cells, as read back by
`validate_discipline_features` (`sum` over all keys starting `foul_grid_`). -/
def gridSum (st : SpatialState) : ℕ :=
  ∑ i : Fin 5, ∑ j : Fin 3, st.grid i j

/-- Number of fouls in the event list that carry a usable location. -/
def countLocated (fouls : List FoulEvent) : ℕ :=
  (fouls.filter (fun e => e.location.isSome)).length

theorem gridSum_update (g : Fin 5 → Fin 3 → ℕ) (a : Fin 5) (b : Fin 3) :
    (∑ i : Fin 5, ∑ j : Fin 3, if i = a ∧ j = b then g i j + 1 else g i j)
      = (∑ i : Fin 5, ∑ j : Fin 3, g i j) + 1 := by
  have h : ∀ i : Fin 5, ∀ j : Fin 3,
      (if i = a ∧ j = b then g i j + 1 else g i j)
        = g i j + (if i = a then (if j = b then 1 else 0) else 0) := by
    intro i j
    by_cases h1 : i = a <;> by_cases h2 : j = b <;> simp [h1, h2]
  calc (∑ i : Fin 5, ∑ j : Fin 3, if i = a ∧ j = b then g i j + 1 else g i j)
      = ∑ i : Fin 5, ((∑ j : Fin 3, g i j)
          + ∑ j : Fin 3, (if i = a then (if j = b then 1 else 0) else 0)) := by
        refine Finset.sum_congr rfl (fun i _ => ?_)
        rw [← Finset.sum_add_distrib]
        exact Finset.sum_congr rfl (fun j _ => h i j)
    _ = (∑ i : Fin 5, ∑ j : Fin 3, g i j) + 1 := by
        rw [Finset.sum_add_distrib]
        congr 1
        have h2 : ∀ i : Fin 5,
            (∑ j : Fin 3, (if i = a then (if j = b then 1 else 0) else 0))
              = (if i = a then 1 else 0) := by
          intro i
          by_cases h1 : i = a <;> simp [h1]
        simp [h2]

theorem spatialStep_counts (st : SpatialState) (e : FoulEvent) :
    gridSum (spatialStep st e)
        = gridSum st + (if e.location.isSome then 1 else 0) ∧
      (spatialStep st e).located
        = st.located + (if e.location.isSome then 1 else 0) := by
  rcases hloc : e.location with _ | ⟨x, y⟩
  · simp [spatialStep, hloc]
  · constructor
    · simp [spatialStep, hloc, gridSum, gridSum_update]
    · simp [spatialStep, hloc]

theorem foldl_spatial_counts (fouls : List FoulEvent) (st : SpatialState) :
    gridSum (fouls.foldl spatialStep st) = gridSum st + countLocated fouls ∧
      (fouls.foldl spatialStep st).located = st.located + countLocated fouls := by
  induction fouls generalizing st with
  | nil => simp [countLocated]
  | cons e rest ih =>
      have hstep := spatialStep_counts st e
      have hrest := ih (spatialStep st e)
      have hcount : countLocated (e :: rest)
          = (if e.location.isSome then 1 else 0) + countLocated rest := by
        rcases hloc : e.location with _ | p
        · simp [countLocated, List.filter_cons, hloc]
        · simp [countLocated, List.filter_cons, hloc]
          omega
      constructor
      · rw [List.foldl_cons, hrest.1, hstep.1, hcount]; omega
      · rw [List.foldl_cons, hrest.2, hstep.2, hcount]; omega

/-- C1: for every input foul event list, the spatial extraction of
`DisciplineAnalyzer._extract_spatial_features` satisfies: the sum over all 15
`foul_grid_x{0..4}_y{0..2}` cells equals the `located_fouls` counter, and
`located_fouls` equals the number of foul events with a usable location —
each located foul increments exactly one grid cell and the counter exactly
once, and fouls without location touch neither. -/
theorem C1_grid_sum_eq_located (fouls : List FoulEvent) :
    gridSum (extractSpatialFeatures fouls)
        = (extractSpatialFeatures fouls).located ∧
      (extractSpatialFeatures fouls).located = countLocated fouls := by
  have h := foldl_spatial_counts fouls SpatialState.init
  have hinit : gridSum SpatialState.init = 0 := by simp [gridSum, SpatialState.init]
  have hinit2 : SpatialState.init.located = 0 := rfl
  refine ⟨?_, ?_⟩
  · rw [extractSpatialFeatures, h.1, h.2, hinit, hinit2]
  · rw [extractSpatialFeatures, h.2, hinit2]; omega

/-! ## C7: the zone-assignment formula -/

/-- Modelled from the spec's words: `x_zone = clamp(floor(x/24), 0, 4)`. -/
def specXZone (x : ℚ) : ℤ := max 0 (min ⌊x / 24⌋ 4)

/-- Modelled from the spec's words, read literally:
`y_zone = clamp(floor(y/26.67), 0, 2)` with the decimal divisor `26.67`. -/
def specYZoneLiteral (y : ℚ) : ℤ := max 0 (min ⌊y / (2667 / 100)⌋ 2)

/-- Modelled from the spec's words with the divisor taken as the actual zone
width `80/3` (of which `26.67` is the rounded display):
`y_zone = clamp(floor(y/(80/3)), 0, 2)`. -/
def specYZoneExact (y : ℚ) : ℤ := max 0 (min ⌊y / (80 / 3)⌋ 2)

theorem pyInt_of_nonneg {q : ℚ} (h : 0 ≤ q) : pyInt q = ⌊q⌋ := by
  simp [pyInt, h]

theorem xZoneInt_nonneg (x : ℚ) : 0 ≤ xZoneInt x := le_max_left _ _

theorem yZoneInt_nonneg (y : ℚ) : 0 ≤ yZoneInt y := le_max_left _ _

theorem incr_iff (n : ℕ) (c : Prop) [Decidable c] :
    (if c then n + 1 else n) = n + 1 ↔ c := by
  by_cases h : c <;> simp [h]

/-- C7 counterexample: at the in-range location `(x, y) = (0, 26.667)` the code
(`zone_width = 80/3`) assigns `y_zone = 1`, while the claim's formula
`clamp(floor(y/26.67), 0, 2)` with the literal divisor `26.67` gives `0`. -/
theorem C7_counterexample :
    ((getZoneFromLocation 0 (26667 / 1000)).2.val : ℤ) = 1 ∧
      specYZoneLiteral (26667 / 1000) = 0 := by
  constructor
  · have h : yZoneInt (26667 / 1000) = 1 := by
      have hfloor : ⌊(26667 / 1000 : ℚ) / (80 / 3)⌋ = 1 := by
        rw [Int.floor_eq_iff]
        norm_num
      rw [yZoneInt, pyInt_of_nonneg (by norm_num), hfloor]
      decide
    simp [getZoneFromLocation, h]
  · have hfloor : ⌊(26667 / 1000 : ℚ) / (2667 / 100)⌋ = 0 := by
      rw [Int.floor_eq_iff]
      norm_num
    rw [specYZoneLiteral, hfloor]
    decide

/-- C7 (amended): for every location with `x ∈ [0,120]` and `y ∈ [0,80]`, the
assigned zone is `x_zone = clamp(floor(x/24), 0, 4)` and
`y_zone = clamp(floor(y/(80/3)), 0, 2)` — the y divisor is the exact zone
width `80/3 ≈ 26.67`, not the literal decimal `26.67` — and the same foul is
classified into exactly one of the 3 length-thirds (`x < 40`, `40 ≤ x < 80`,
`x ≥ 80`) and one of the 3 width-lanes (`y < 80/3`, `80/3 ≤ y < 160/3`,
`y ≥ 160/3`) for the share statistics. -/
theorem C7_zone_assignment (x y : ℚ) (hx0 : 0 ≤ x) (hx1 : x ≤ 120)
    (hy0 : 0 ≤ y) (hy1 : y ≤ 80) (st : SpatialState) :
    (((getZoneFromLocation x y).1.val : ℤ) = specXZone x ∧
      ((getZoneFromLocation x y).2.val : ℤ) = specYZoneExact y) ∧
    ((spatialStep st ⟨some (x, y)⟩).defThird = st.defThird + 1 ↔ x < 40) ∧
    ((spatialStep st ⟨some (x, y)⟩).midThird = st.midThird + 1 ↔ 40 ≤ x ∧ x < 80) ∧
    ((spatialStep st ⟨some (x, y)⟩).attThird = st.attThird + 1 ↔ 80 ≤ x) ∧
    ((spatialStep st ⟨some (x, y)⟩).leftFouls = st.leftFouls + 1 ↔ y < 80 / 3) ∧
    ((spatialStep st ⟨some (x, y)⟩).centerFouls = st.centerFouls + 1 ↔
      80 / 3 ≤ y ∧ y < 160 / 3) ∧
    ((spatialStep st ⟨some (x, y)⟩).rightFouls = st.rightFouls + 1 ↔ 160 / 3 ≤ y) := by
  have hxz : pyInt (x / 24) = ⌊x / 24⌋ :=
    pyInt_of_nonneg (div_nonneg hx0 (by norm_num))
  have hyz : pyInt (y / (80 / 3)) = ⌊y / (80 / 3)⌋ :=
    pyInt_of_nonneg (div_nonneg hy0 (by norm_num))
  refine ⟨⟨?_, ?_⟩, ?_, ?_, ?_, ?_, ?_, ?_⟩
  · show ((xZoneInt x).toNat : ℤ) = specXZone x
    rw [Int.toNat_of_nonneg (xZoneInt_nonneg x), xZoneInt, hxz, specXZone]
  · show ((yZoneInt y).toNat : ℤ) = specYZoneExact y
    rw [Int.toNat_of_nonneg (yZoneInt_nonneg y), yZoneInt, hyz, specYZoneExact]
  · show (if x < 40 then st.defThird + 1 else st.defThird) = st.defThird + 1 ↔ x < 40
    exact incr_iff _ _
  · show (if ¬ x < 40 ∧ x < 80 then st.midThird + 1 else st.midThird)
        = st.midThird + 1 ↔ 40 ≤ x ∧ x < 80
    rw [incr_iff, not_lt]
  · show (if ¬ x < 40 ∧ ¬ x < 80 then st.attThird + 1 else st.attThird)
        = st.attThird + 1 ↔ 80 ≤ x
    rw [incr_iff, not_lt, not_lt]
    exact ⟨fun h => h.2, fun h => ⟨by linarith, h⟩⟩
  · show (if y < 80 / 3 then st.leftFouls + 1 else st.leftFouls)
        = st.leftFouls + 1 ↔ y < 80 / 3
    exact incr_iff _ _
  · show (if ¬ y < 80 / 3 ∧ y < 2 * 80 / 3 then st.centerFouls + 1 else st.centerFouls)
        = st.centerFouls + 1 ↔ 80 / 3 ≤ y ∧ y < 160 / 3
    rw [incr_iff, not_lt]
    norm_num
  · show (if ¬ y < 80 / 3 ∧ ¬ y < 2 * 80 / 3 then st.rightFouls + 1 else st.rightFouls)
        = st.rightFouls + 1 ↔ 160 / 3 ≤ y
    rw [incr_iff, not_lt, not_lt]
    constructor
    · intro h
      calc (160 / 3 : ℚ) = 2 * 80 / 3 := by norm_num
        _ ≤ y := h.2
    · intro h
      refine ⟨by linarith, by linarith⟩

/-- Witness for `C7_zone_assignment` at the concrete location `(50, 30)`. -/
theorem C7_zone_assignment_witness :
    ((getZoneFromLocation 50 30).1.val : ℤ) = specXZone 50 ∧
      ((getZoneFromLocation 50 30).2.val : ℤ) = specYZoneExact 30 :=
  (C7_zone_assignment 50 30 (by norm_num) (by norm_num) (by norm_num) (by norm_num)
    SpatialState.init).1

/-! ## Playstyle features (src/features.py)

### PPDA (`PlaystyleFeatureExtractor._extract_pressing_features`)
-/

/-- One event as seen by the pressing-feature extraction: owning team and
type name. -/
structure MatchEvent where
  teamName : String
  eventTypeName : String
deriving Repr, DecidableEq

/-- The `ppda` feature value: a rational, or `float('inf')` when the team has
no defensive actions. -/
inductive PPDAValue
  | infinite
  | val (q : ℚ)
deriving Repr, DecidableEq

/-- The defensive-action event types of `_extract_pressing_features`. -/
def defensiveActionTypes : List String := ["Pressure", "Tackle", "Interception", "Duel"]

/-- Count of the team's defensive actions. -/
def countDefensiveActions (events : List MatchEvent) (team : String) : ℕ :=
  ((events.filter (fun e => e.teamName = team)).filter
    (fun e => e.eventTypeName ∈ defensiveActionTypes)).length

/-- Count of the opponent's Pass events. -/
def countOpponentPasses (events : List MatchEvent) (opponent : String) : ℕ :=
  ((events.filter (fun e => e.teamName = opponent)).filter
    (fun e => e.eventTypeName = "Pass")).length

/-- `features['ppda']` from `_extract_pressing_features`:
`len(opponent_passes) / len(defensive_actions)` if there is at least one
defensive action, else `float('inf')`. -/
def extractPPDA (events : List MatchEvent) (team opponent : String) : PPDAValue :=
  let defensiveActions := (events.filter (fun e => e.teamName = team)).filter
    (fun e => e.eventTypeName ∈ defensiveActionTypes)
  let opponentPasses := (events.filter (fun e => e.teamName = opponent)).filter
    (fun e => e.eventTypeName = "Pass")
  if 0 < defensiveActions.length then
    .val ((opponentPasses.length : ℚ) / (defensiveActions.length : ℚ))
  else
    .infinite

/-- C8: PPDA equals the count of opponent Pass events divided by the count of
the team's defensive actions (Pressure, Tackle, Interception, Duel), and is
`+infinity` when the team has zero defensive actions. -/
theorem C8_ppda (events : List MatchEvent) (team opponent : String) :
    (countDefensiveActions events team = 0 →
        extractPPDA events team opponent = .infinite) ∧
      (0 < countDefensiveActions events team →
        extractPPDA events team opponent
          = .val ((countOpponentPasses events opponent : ℚ)
              / (countDefensiveActions events team : ℚ))) := by
  constructor
  · intro h
    rw [extractPPDA]
    simp only [countDefensiveActions] at h
    rw [h]
    simp
  · intro h
    rw [extractPPDA]
    simp only [countDefensiveActions] at h
    simp only [countDefensiveActions, countOpponentPasses]
    rw [if_pos h]

/-- An event set with 2 opponent passes and 3 team defensive actions. -/
def ppdaExampleEvents : List MatchEvent :=
  [⟨"A", "Pressure"⟩, ⟨"A", "Tackle"⟩, ⟨"A", "Duel"⟩, ⟨"A", "Pass"⟩,
   ⟨"B", "Pass"⟩, ⟨"B", "Pass"⟩, ⟨"B", "Shot"⟩]

/-- Witness for `C8_ppda`: 2 opponent passes and 3 team defensive actions give
PPDA = 2/3. -/
theorem C8_ppda_witness :
    0 < countDefensiveActions ppdaExampleEvents "A" ∧
      extractPPDA ppdaExampleEvents "A" "B" = .val (2 / 3) := by
  refine ⟨by decide, ?_⟩
  have h := (C8_ppda ppdaExampleEvents "A" "B").2 (by decide)
  have h2 : countOpponentPasses ppdaExampleEvents "B" = 2 := by decide
  have h3 : countDefensiveActions ppdaExampleEvents "A" = 3 := by decide
  rw [h, h2, h3]
  norm_num

/-! ### Possession directness
(`PlaystyleFeatureExtractor._extract_possession_features` /
`_calculate_possession_directness`)
-/

/-- A team Pass event as seen by the directness computation: possession id
(`NaN`/absent modelled as `none`) and optional start/end locations (a usable
location in the source is a list of length ≥ 2). -/
structure PassEvent where
  possession : Option ℕ
  location : Option (ℚ × ℚ)
  passEndLocation : Option (ℚ × ℚ)
deriving Repr, DecidableEq

/-- `forward_gain = max(0, end_x - start_x)` for one pass; contributes 0 when
either location is missing (the loop in `_calculate_possession_directness`
skips such passes). -/
noncomputable def passForwardGain (p : PassEvent) : ℝ :=
  match p.location, p.passEndLocation with
  | some (sx, _), some (ex, _) => max 0 ((ex : ℝ) - (sx : ℝ))
  | _, _ => 0

/-- `distance = sqrt((end_x-start_x)**2 + (end_y-start_y)**2)` for one pass;
contributes 0 when either location is missing. -/
noncomputable def passDistance (p : PassEvent) : ℝ :=
  match p.location, p.passEndLocation with
  | some (sx, sy), some (ex, ey) =>
      Real.sqrt (((ex : ℝ) - (sx : ℝ)) ^ 2 + ((ey : ℝ) - (sy : ℝ)) ^ 2)
  | _, _ => 0

open scoped Classical in
/-- `_calculate_possession_directness`: `None` if the sequence has fewer than
2 passes (located or not); otherwise the ratio of the accumulated forward gain
to the accumulated 2-D distance, or `None` when the accumulated distance is
not positive. -/
noncomputable def calculatePossessionDirectness (passes : List PassEvent) : Option ℝ :=
  if passes.length < 2 then none
  else if 0 < (passes.map passDistance).sum then
    some ((passes.map passForwardGain).sum / (passes.map passDistance).sum)
  else none

/-- `team_passes['possession'].unique()` restricted to non-null ids: the
distinct possession ids in order of first appearance. -/
def uniquePossessionIds (passes : List PassEvent) : List ℕ :=
  (passes.filterMap (fun p => p.possession)).foldl
    (fun acc pid => if pid ∈ acc then acc else acc ++ [pid]) []

/-- The `directness_scores` list of `_extract_possession_features`. -/
noncomputable def directnessScores (teamPasses : List PassEvent) : List ℝ :=
  (uniquePossessionIds teamPasses).filterMap
    (fun pid => calculatePossessionDirectness
      (teamPasses.filter (fun p => p.possession = some pid)))

/-- `features['directness']`: `np.mean(directness_scores)` when some sequence
qualifies, else the default `0.5`. -/
noncomputable def extractDirectness (teamPasses : List PassEvent) : ℝ :=
  if (directnessScores teamPasses).isEmpty then 0.5
  else (directnessScores teamPasses).sum / ((directnessScores teamPasses).length : ℝ)

/-- A pass with a usable start and end location. -/
def isLocatedPass (p : PassEvent) : Bool :=
  p.location.isSome && p.passEndLocation.isSome

/-- Modelled from the spec's words (C4): per possession sequence, directness =
(sum of forward-only x-gain across the sequence's passes) / (sum of full 2-D
pass distances), where every sequence with fewer than 2 **located** passes is
excluded from the average. -/
noncomputable def claimPossessionDirectness (passes : List PassEvent) : Option ℝ :=
  if (passes.filter isLocatedPass).length < 2 then none
  else some ((passes.map passForwardGain).sum / (passes.map passDistance).sum)

/-- Modelled from the spec's words (C4): the mean of the per-sequence values
over the qualifying sequences, with default `0.5` when no sequence qualifies. -/
noncomputable def claimDirectness (teamPasses : List PassEvent) : ℝ :=
  if ((uniquePossessionIds teamPasses).filterMap
      (fun pid => claimPossessionDirectness
        (teamPasses.filter (fun p => p.possession = some pid)))).isEmpty then 0.5
  else ((uniquePossessionIds teamPasses).filterMap
      (fun pid => claimPossessionDirectness
        (teamPasses.filter (fun p => p.possession = some pid)))).sum
    / (((uniquePossessionIds teamPasses).filterMap
      (fun pid => claimPossessionDirectness
        (teamPasses.filter (fun p => p.possession = some pid)))).length : ℝ)

/-- One possession with two passes, of which only the first is located:
start (0,0), end (10,0). -/
def c4Passes : List PassEvent :=
  [⟨some 1, some (0, 0), some (10, 0)⟩, ⟨some 1, none, none⟩]

theorem c4_unique : uniquePossessionIds c4Passes = [1] := by decide

theorem c4_filter : c4Passes.filter (fun p => p.possession = some 1) = c4Passes := by
  decide

theorem c4_gain_sum : (c4Passes.map passForwardGain).sum = 10 := by
  simp [c4Passes, passForwardGain]

theorem c4_dist_sum : (c4Passes.map passDistance).sum = 10 := by
  simp [c4Passes, passDistance]

theorem c4_calc : calculatePossessionDirectness c4Passes = some 1 := by
  have hlen : ¬ (c4Passes.length < 2) := by decide
  rw [calculatePossessionDirectness, if_neg hlen, c4_gain_sum, c4_dist_sum,
    if_pos (by norm_num : (0:ℝ) < 10)]
  norm_num

theorem c4_scores : directnessScores c4Passes = [1] := by
  rw [directnessScores, c4_unique]
  simp only [List.filterMap_cons, List.filterMap_nil, c4_filter, c4_calc]

/-- C4 counterexample: for the single-possession pass list `c4Passes` (two
passes, exactly one of them located, forward gain 10 over distance 10), the
code includes the sequence (`len(possession_passes) >= 2` counts unlocated
passes) and returns directness 1, while the claim's formula excludes the
sequence (fewer than 2 located passes) and defaults to 0.5. -/
theorem C4_counterexample :
    extractDirectness c4Passes = 1 ∧ claimDirectness c4Passes = 1 / 2 := by
  constructor
  · rw [extractDirectness, c4_scores]
    norm_num
  · have hclaim : claimPossessionDirectness c4Passes = none := by
      rw [claimPossessionDirectness, if_pos (by decide)]
    rw [claimDirectness, c4_unique]
    simp only [List.filterMap_cons, List.filterMap_nil, c4_filter, hclaim]
    norm_num

/-- C4 (amended): the directness feature equals the mean over possession
sequences of (sum of forward-only x-gain) / (sum of full 2-D pass distances),
where a sequence is excluded from the average iff it has fewer than 2 passes
(located or not) or its total 2-D pass distance is not positive; the value
defaults to 0.5 when no sequence qualifies. -/
theorem C4_directness_amended (teamPasses : List PassEvent) :
    (directnessScores teamPasses = [] → extractDirectness teamPasses = 0.5) ∧
      (directnessScores teamPasses ≠ [] →
        extractDirectness teamPasses
          = (directnessScores teamPasses).sum
              / ((directnessScores teamPasses).length : ℝ)) ∧
      (∀ s : List PassEvent,
        (calculatePossessionDirectness s = none ↔
            s.length < 2 ∨ (s.map passDistance).sum ≤ 0) ∧
          ∀ r, calculatePossessionDirectness s = some r →
            r = (s.map passForwardGain).sum / (s.map passDistance).sum) := by
  refine ⟨?_, ?_, ?_⟩
  · intro h
    rw [extractDirectness, if_pos (by rw [h]; rfl)]
  · intro h
    rw [extractDirectness, if_neg (by simpa using h)]
  · intro s
    constructor
    · by_cases h1 : s.length < 2
      · simp [calculatePossessionDirectness, h1]
      · by_cases h2 : 0 < (s.map passDistance).sum
        · rw [calculatePossessionDirectness, if_neg h1, if_pos h2]
          constructor
          · intro h3
            exact absurd h3 (by simp)
          · rintro (h3 | h3)
            · exact absurd h3 h1
            · linarith
        · rw [calculatePossessionDirectness, if_neg h1, if_neg h2]
          exact iff_of_true rfl (Or.inr (not_lt.mp h2))
    · intro r hr
      rw [calculatePossessionDirectness] at hr
      split_ifs at hr with h1 h2
      exact ((Option.some.injEq _ _).mp hr).symm

/-- Witness for `C4_directness_amended` at the empty pass list: no sequence
qualifies, so the directness defaults to 0.5. -/
theorem C4_directness_amended_witness : extractDirectness [] = 0.5 :=
  (C4_directness_amended []).1 rfl

/-! ## Zone-wise Negative-Binomial modeling (src/modeling_zone_nb.py)

The statsmodels solver is external to the repository; its per-zone outcome is
an oracle `SolverOutcome`.  The AIC of a fitted model is a Python float, so
its value domain is: absent (`None`), `NaN`, infinite, or a finite number.
`_fit_single_zone_model` validates it with
`model.aic is None or np.isnan(model.aic)` — and `np.isnan` is `False` on an
infinite float, so an infinite AIC passes the check.
-/

/-- The possible states of `model.aic`. -/
inductive AICStatus
  | missing
  | nan
  | infinite
  | finite (q : ℚ)
deriving Repr, DecidableEq

/-- `model.aic is None or np.isnan(model.aic)`: the AIC validity check of
`_fit_single_zone_model`.  `np.isnan` is `False` on an infinite float. -/
def aicRejected : AICStatus → Bool
  | .missing => true
  | .nan => true
  | .infinite => false
  | .finite _ => false

/-- Outcome of one `smf.glm(...).fit()` call: either the solver raises (an
exception the source catches), or it returns a model with a convergence flag
and an AIC. -/
inductive SolverOutcome
  | raises
  | fitted (converged : Bool) (aic : AICStatus)
deriving Repr, DecidableEq

/-- A fitted zone model as stored in `self.fitted_models`. -/
structure ZoneModel where
  converged : Bool
  aic : AICStatus
deriving Repr, DecidableEq

/-- The prepared modeling table: its column names and, per row, the 15
`foul_grid_x{x}_y{y}` response counts. -/
structure ModelTable where
  columns : List String
  gridCounts : List (Fin 5 → Fin 3 → ℕ)

/-- `total_events = df[response_var].sum()` for one zone. -/
def totalZoneEvents (t : ModelTable) (x : Fin 5) (y : Fin 3) : ℕ :=
  (t.gridCounts.map (fun row => row x y)).sum

/-- The interaction terms of the model formula
(`fit_zone_nb_models`, lines 144-149): a term `z_f:C(referee_name)` is added
only when the column `z_f` exists — a missing interaction feature is silently
dropped, not reported. -/
def usedInteractionTerms (columns : List String) (interactionFeatures : List String) :
    List String :=
  (interactionFeatures.filter (fun f => columns.contains ("z_" ++ f))).map
    (fun f => "z_" ++ f ++ ":C(referee_name)")

/-- The columns the glm formula evaluation needs: the base features (added to
the formula unchecked), the home/away control and the referee factor.  The
interaction terms were pre-filtered to existing columns and cannot be
missing. -/
def formulaRequiredColumns (featureList : List String) : List String :=
  featureList ++ ["home_indicator", "referee_name"]

/-- `_fit_single_zone_model`: skip the zone when its total event count is
below `min_zone_events`; otherwise run the solver inside `try/except` — a
glm/patsy error on a formula column that is absent from the table, or any
solver exception, yields `None`; a non-converged model yields `None`; a model
whose AIC is `None` or `NaN` yields `None`; otherwise the model is kept. -/
def fitSingleZoneModel (minZoneEvents : ℕ) (totalEvents : ℕ)
    (columns : List String) (featureList : List String)
    (outcome : SolverOutcome) : Option ZoneModel :=
  if totalEvents < minZoneEvents then none
  else if ¬ (formulaRequiredColumns featureList).all (fun c => columns.contains c) then
    none
  else
    match outcome with
    | .raises => none
    | .fitted c a =>
        if ¬ c then none
        else if aicRejected a then none
        else some ⟨c, a⟩

/-- `zone_id = f'zone_{x}_{y}'`. -/
def zoneKey (x : Fin 5) (y : Fin 3) : String :=
  "zone_" ++ toString x.val ++ "_" ++ toString y.val

/-- The 15 zones in the iteration order of `fit_zone_nb_models`. -/
def allZones : List (Fin 5 × Fin 3) :=
  (List.finRange 5).flatMap (fun x => (List.finRange 3).map (fun y => (x, y)))

/-- `fit_zone_nb_models`: the default `feature_list`. -/
def defaultFeatureList : List String :=
  ["z_ppda", "z_directness", "z_possession_share", "z_block_height_x", "z_wing_share"]

/-- `fit_zone_nb_models`: fit every zone; a zone whose
`_fit_single_zone_model` returns `None` (or raises — also caught by the
surrounding `try/except`) is simply not added to `self.fitted_models`; the
run itself never raises. -/
def fitZoneNbModels (t : ModelTable) (featureList : List String)
    (minZoneEvents : ℕ) (solver : Fin 5 → Fin 3 → SolverOutcome) :
    List (String × ZoneModel) :=
  allZones.filterMap (fun z =>
    (fitSingleZoneModel minZoneEvents (totalZoneEvents t z.1 z.2) t.columns featureList
        (solver z.1 z.2)).map (fun m => (zoneKey z.1 z.2, m)))

theorem zoneKey_inj :
    ∀ (x x' : Fin 5) (y y' : Fin 3), zoneKey x y = zoneKey x' y' → x = x' ∧ y = y' := by
  decide

theorem mem_allZones (x : Fin 5) (y : Fin 3) : (x, y) ∈ allZones := by
  simp [allZones, List.mem_flatMap]

/-- Membership in the fitted-model map, reduced to the per-zone fit result. -/
theorem mem_fitZone_keys (t : ModelTable) (featureList : List String)
    (minZoneEvents : ℕ) (solver : Fin 5 → Fin 3 → SolverOutcome)
    (x : Fin 5) (y : Fin 3) :
    zoneKey x y ∈ (fitZoneNbModels t featureList minZoneEvents solver).map Prod.fst ↔
      ∃ m, fitSingleZoneModel minZoneEvents (totalZoneEvents t x y) t.columns
          featureList (solver x y) = some m := by
  constructor
  · intro h
    rcases List.mem_map.mp h with ⟨⟨k, m⟩, hmem, hk⟩
    rcases List.mem_filterMap.mp hmem with ⟨⟨x', y'⟩, _, hfit⟩
    rcases Option.map_eq_some'.mp hfit with ⟨m', hm', heq⟩
    have hkey : zoneKey x' y' = zoneKey x y := by
      have h2 := congrArg Prod.fst heq
      simp only at h2
      rw [h2]
      exact hk
    obtain ⟨hx, hy⟩ := zoneKey_inj x' x y' y hkey
    subst hx; subst hy
    exact ⟨m', hm'⟩
  · rintro ⟨m, hm⟩
    refine List.mem_map.mpr ⟨(zoneKey x y, m), ?_, rfl⟩
    refine List.mem_filterMap.mpr ⟨(x, y), mem_allZones x y, ?_⟩
    rw [hm]
    rfl

/-- A one-row table whose 15 zone counts are all 3, with every default base
feature column present. -/
def c2Table : ModelTable :=
  ⟨defaultFeatureList ++ ["home_indicator", "referee_name", "log_opp_passes"],
   [fun _ _ => 3]⟩

/-- C2 counterexample: a zone meeting the event threshold whose solver
converges but reports an **infinite** AIC is kept in the model map — the
source only rejects `None`/`NaN` AICs (`model.aic is None or
np.isnan(model.aic)`), and `np.isnan` is false on an infinite float — so the
claim that a zone with a non-finite AIC is always absent fails. -/
theorem C2_counterexample :
    zoneKey 0 0 ∈ (fitZoneNbModels c2Table defaultFeatureList 3
        (fun _ _ => .fitted true .infinite)).map Prod.fst ∧
      aicRejected .infinite = false := by
  refine ⟨?_, rfl⟩
  decide

/-- C2 (amended): a zone whose total observed event count is below
`min_zone_events` never produces a model; a zone whose solver raises, does
not converge, or reports a `None` or `NaN` AIC is absent from the returned
model map (an infinite AIC is, however, not rejected); and the run completes
for the remaining zones: a zone meeting the threshold, with all formula
columns present and a converged fit with finite AIC, is in the map. -/
theorem C2_zone_fit_policy (t : ModelTable) (featureList : List String)
    (minZoneEvents : ℕ) (solver : Fin 5 → Fin 3 → SolverOutcome)
    (x : Fin 5) (y : Fin 3) :
    (totalZoneEvents t x y < minZoneEvents →
        zoneKey x y ∉
          (fitZoneNbModels t featureList minZoneEvents solver).map Prod.fst) ∧
      (∀ a, solver x y = .fitted false a →
        zoneKey x y ∉
          (fitZoneNbModels t featureList minZoneEvents solver).map Prod.fst) ∧
      (∀ c, (solver x y = .fitted c .nan ∨ solver x y = .fitted c .missing) →
        zoneKey x y ∉
          (fitZoneNbModels t featureList minZoneEvents solver).map Prod.fst) ∧
      (solver x y = .raises →
        zoneKey x y ∉
          (fitZoneNbModels t featureList minZoneEvents solver).map Prod.fst) ∧
      (∀ q, minZoneEvents ≤ totalZoneEvents t x y →
        (formulaRequiredColumns featureList).all
          (fun c => t.columns.contains c) = true →
        solver x y = .fitted true (.finite q) →
        zoneKey x y ∈
          (fitZoneNbModels t featureList minZoneEvents solver).map Prod.fst) := by
  refine ⟨?_, ?_, ?_, ?_, ?_⟩
  · intro hlt
    rw [mem_fitZone_keys]
    rintro ⟨m, hm⟩
    rw [fitSingleZoneModel.eq_def, if_pos hlt] at hm
    exact Option.noConfusion hm
  · intro a hsol
    rw [mem_fitZone_keys]
    rintro ⟨m, hm⟩
    rw [fitSingleZoneModel.eq_def] at hm
    split_ifs at hm
    rw [hsol] at hm
    simp at hm
  · intro c hsol
    rw [mem_fitZone_keys]
    rintro ⟨m, hm⟩
    rw [fitSingleZoneModel.eq_def] at hm
    split_ifs at hm
    rcases hsol with hsol | hsol <;>
    · rw [hsol] at hm
      rcases c with _ | _ <;> simp [aicRejected] at hm
  · intro hsol
    rw [mem_fitZone_keys]
    rintro ⟨m, hm⟩
    rw [fitSingleZoneModel.eq_def] at hm
    split_ifs at hm
    rw [hsol] at hm
    exact Option.noConfusion hm
  · intro q hle hcols hsol
    rw [mem_fitZone_keys]
    refine ⟨⟨true, .finite q⟩, ?_⟩
    rw [fitSingleZoneModel.eq_def, if_neg (by omega), if_neg (not_not_intro hcols),
      hsol]
    simp [aicRejected]

/-- Witness for `C2_zone_fit_policy`: on an empty table every zone total is 0,
below the default threshold 3, so no zone is in the map. -/
theorem C2_zone_fit_policy_witness :
    zoneKey 0 0 ∉
      (fitZoneNbModels ⟨[], []⟩ defaultFeatureList 3
        (fun _ _ => SolverOutcome.raises)).map Prod.fst :=
  (C2_zone_fit_policy ⟨[], []⟩ defaultFeatureList 3 (fun _ _ => .raises) 0 0).1
    (by decide)

/-! ### Prediction (`ZoneNBModeler.predict_expected_fouls`) -/

/-- The feature row handed to prediction. -/
structure PredictRow where
  features : List (String × ℚ)

/-- `predict_expected_fouls`: raises `ValueError` when `self.fitted_models`
is empty; otherwise, for each zone in the model map, stores the solver
prediction under that zone's key — storing `0.0` if the per-zone prediction
raises (its exception is caught).  The per-model prediction
(`model.predict(pred_df)[0]`, external statsmodels code) is the oracle
`predictOne`. -/
def predictExpectedFouls (models : List (String × ZoneModel)) (row : PredictRow)
    (predictOne : ZoneModel → PredictRow → Except String ℚ) :
    Except String (List (String × ℚ)) :=
  if models.isEmpty then
    .error "No fitted models available. Run fit_zone_nb_models first."
  else
    .ok (models.map (fun zm =>
      (zm.1, match predictOne zm.2 row with
             | .ok v => v
             | .error _ => 0)))

/-- C3 counterexample: on an empty fitted-model map, `predict_expected_fouls`
raises `ValueError` rather than returning a (zero-key) prediction map. -/
theorem C3_counterexample :
    predictExpectedFouls [] ⟨[]⟩ (fun _ _ => .ok 1)
      = .error "No fitted models available. Run fit_zone_nb_models first." := rfl

/-- C3 (amended): for every **non-empty** fitted model map and every feature
row, prediction returns a map whose key list is exactly the key list of the
model map — zones without a fitted model are omitted and no value is
fabricated for them; on the empty model map the call raises `ValueError`
instead. -/
theorem C3_predict_key_coverage (models : List (String × ZoneModel))
    (row : PredictRow) (predictOne : ZoneModel → PredictRow → Except String ℚ)
    (h : models ≠ []) :
    ∃ preds, predictExpectedFouls models row predictOne = .ok preds ∧
      preds.map Prod.fst = models.map Prod.fst := by
  refine ⟨models.map (fun zm =>
      (zm.1, match predictOne zm.2 row with
             | .ok v => v
             | .error _ => 0)), ?_, ?_⟩
  · rw [predictExpectedFouls, if_neg (by simpa using h)]
  · rw [List.map_map]
    rfl

/-- A 12-entry fitted model map: the 15 zones minus the first 3. -/
def c3Models : List (String × ZoneModel) :=
  (allZones.drop 3).map (fun z => (zoneKey z.1 z.2, ⟨true, .finite 100⟩))

/-- Witness for `C3_predict_key_coverage`: over a model map missing 3 of the
15 zones, prediction returns exactly the 12 model keys. -/
theorem C3_predict_key_coverage_witness :
    c3Models.length = 12 ∧
      ∃ preds, predictExpectedFouls c3Models ⟨[]⟩ (fun _ _ => .ok 1) = .ok preds ∧
        preds.map Prod.fst = c3Models.map Prod.fst :=
  ⟨by decide, C3_predict_key_coverage c3Models ⟨[]⟩ (fun _ _ => .ok 1) (by decide)⟩

/-! ### Missing formula features (C5) -/

/-- The columns of a table that has `z_ppda` but no `z_directness` (etc.). -/
def c5Columns : List String :=
  ["z_ppda", "home_indicator", "referee_name", "log_opp_passes"]

/-- A one-row table on `c5Columns` with 5 events in every zone. -/
def c5Table : ModelTable := ⟨c5Columns, [fun _ _ => 5]⟩

/-- C5 counterexample: with the `z_directness` column absent, (a) the
interaction term for `directness` is silently dropped from the formula while
`ppda`'s survives, and the fit with base feature `z_ppda` still returns a
full 15-zone model map; and (b) with the default base feature list (which
references the absent `z_directness`), every zone's glm call fails, the
failure is swallowed per zone, and the fit returns the empty map — in
neither case does the run abort with a diagnostic error. -/
theorem C5_counterexample :
    usedInteractionTerms c5Columns ["directness", "ppda"]
        = ["z_ppda:C(referee_name)"] ∧
      (fitZoneNbModels c5Table ["z_ppda"] 3
          (fun _ _ => .fitted true (.finite 100))).length = 15 ∧
      fitZoneNbModels c5Table defaultFeatureList 3
          (fun _ _ => .fitted true (.finite 100)) = [] := by
  refine ⟨by decide, by decide, by decide⟩

theorem filter_drop_missing (cols : List String) (g : String)
    (hg : cols.contains ("z_" ++ g) = false) (l : List String) :
    (l.filter (fun s => !(s == g))).filter (fun s => cols.contains ("z_" ++ s))
      = l.filter (fun s => cols.contains ("z_" ++ s)) := by
  induction l with
  | nil => rfl
  | cons a l ih =>
      by_cases ha : a = g
      · subst ha
        rw [List.filter_cons, if_neg (by simp), List.filter_cons,
          if_neg (by simpa using hg), ih]
      · rw [List.filter_cons, if_pos (by simp [ha]), List.filter_cons,
          List.filter_cons]
        by_cases hc : cols.contains ("z_" ++ a) = true
        · rw [if_pos hc, if_pos hc, ih]
        · rw [if_neg hc, if_neg hc, ih]

/-- C5 (amended): a base feature referenced by the formula but absent from
the table does not abort the run: every zone's fit fails inside its
`try/except` and the run returns the empty model map normally; a missing
interaction feature is silently dropped from the formula, i.e. removing it
from the interaction list leaves the generated interaction terms unchanged. -/
theorem C5_missing_feature_no_abort (t : ModelTable) (featureList : List String)
    (interactionFeatures : List String) (minZoneEvents : ℕ)
    (solver : Fin 5 → Fin 3 → SolverOutcome)
    (f : String) (hf : f ∈ featureList) (hmiss : t.columns.contains f = false) :
    fitZoneNbModels t featureList minZoneEvents solver = [] ∧
      ∀ g, t.columns.contains ("z_" ++ g) = false →
        usedInteractionTerms t.columns
            (interactionFeatures.filter (fun s => !(s == g)))
          = usedInteractionTerms t.columns interactionFeatures := by
  have hall : (formulaRequiredColumns featureList).all
      (fun c => t.columns.contains c) = false := by
    apply List.all_eq_false.mpr
    refine ⟨f, by simp [formulaRequiredColumns, hf], by simpa using hmiss⟩
  have hnone : ∀ totE o,
      fitSingleZoneModel minZoneEvents totE t.columns featureList o = none := by
    intro totE o
    rw [fitSingleZoneModel.eq_def]
    split_ifs with h1 h2
    · rfl
    · rw [h2] at hall
      simp at hall
    · rfl
  constructor
  · rw [fitZoneNbModels]
    apply List.filterMap_eq_nil_iff.mpr
    intro z _
    rw [hnone]
    rfl
  · intro g hg
    rw [usedInteractionTerms, usedInteractionTerms]
    congr 1
    exact filter_drop_missing t.columns g hg interactionFeatures

/-- Witness for `C5_missing_feature_no_abort` at the concrete `c5Table` with
the default feature list (whose `z_directness` is absent from the table). -/
theorem C5_missing_feature_no_abort_witness :
    fitZoneNbModels c5Table defaultFeatureList 5 (fun _ _ => .raises) = [] :=
  (C5_missing_feature_no_abort c5Table defaultFeatureList ["directness"] 5
    (fun _ _ => .raises) "z_directness" (by decide) (by decide)).1

/-! ## Style categorization (src/reader/categorizer.py)

Each `categorize_*` function receives the `thresholds` dict extracted from the
configuration, but none of them reads it (`categorize_pressing` binds
`pressing_thresholds = thresholds.get('pressing', {})` and never uses it); all
threshold values appearing below are the hardcoded literals of the source.
-/

/-- The shape of the `archetype_thresholds` configuration dict:
axis → band → metric → [low, high]. -/
structure Thresholds where
  entries : List (String × List (String × List (String × (ℚ × ℚ))))

/-- The value returned by `get_default_archetype_config()` (note that several
of its numbers differ from the hardcoded thresholds the categorizers use). -/
def defaultArchetypeConfig : Thresholds :=
  ⟨[("pressing",
      [("very_high", [("ppda", (0, 8)), ("def_share_att_third", (0.4, 1.0))]),
       ("high", [("ppda", (8, 12)), ("def_share_att_third", (0.25, 1.0))]),
       ("mid", [("ppda", (12, 18)), ("def_share_att_third", (0.15, 0.4))]),
       ("low", [("ppda", (18, 100)), ("def_share_att_third", (0, 0.25))])]),
    ("block",
      [("high", [("block_height_x", (70, 120))]),
       ("mid", [("block_height_x", (45, 70))]),
       ("low", [("block_height_x", (0, 45))])]),
    ("possession_directness",
      [("possession_based", [("possession_share", (0.55, 1.0)), ("directness", (0, 0.4))]),
       ("balanced", [("possession_share", (0.45, 0.65)), ("directness", (0.3, 0.7))]),
       ("direct", [("possession_share", (0, 0.55)), ("directness", (0.6, 1.0))])]),
    ("width",
      [("wing_overload", [("wing_share", (0.75, 1.0)), ("cross_share", (0.08, 1.0))]),
       ("central_focus", [("wing_share", (0, 0.5)), ("lane_center_share", (0.5, 1.0))]),
       ("balanced_channels", [("wing_share", (0.5, 0.75)), ("lane_center_share", (0.3, 0.6))])]),
    ("transition",
      [("high", [("counter_rate", (0.15, 1.0))]),
       ("low", [("counter_rate", (0, 0.15))])]),
    ("overlays",
      [("cross_heavy", [("cross_share", (0.12, 1.0))]),
       ("set_piece_focus", [("fouls_committed", (0, 8))])])]⟩

/-- A feature row as read by the categorizers via `row.get(...)`: an absent or
null feature is `none` (the source maps both `None` and `NaN` to the same
per-metric default). -/
structure CatRow where
  ppda : Option PPDAValue := none
  defShareAttThird : Option ℚ := none
  blockHeightX : Option ℚ := none
  possessionShare : Option ℚ := none
  directness : Option ℚ := none
  wingShare : Option ℚ := none
  laneCenterShare : Option ℚ := none
  crossShare : Option ℚ := none
  counterRate : Option ℚ := none
  foulsCommitted : Option ℚ := none
  foulShareAttThird : Option ℚ := none
  foulShareDefThird : Option ℚ := none
deriving Repr, DecidableEq

/-- Priority order of `categorize_pressing`
(`{'very_high': 4, 'high': 3, 'mid': 2, 'low': 1}`). -/
def pressingPriority : String → ℕ
  | "very_high" => 4
  | "high" => 3
  | "mid" => 2
  | "low" => 1
  | _ => 0

/-- `categorize_pressing`: PPDA band and attacking-third-share band, combined
by taking the higher pressing intensity (Python `max(a, b, key=priority)`
returns the first argument on ties).  `row.get('ppda', inf)` defaults to
infinity and an infinite PPDA is replaced by 50 (very low pressing). -/
def categorizePressing (row : CatRow) (thresholds : Thresholds) : String :=
  let ppda : ℚ :=
    match row.ppda.getD .infinite with
    | .infinite => 50
    | .val q => q
  let attThirdShare := row.defShareAttThird.getD 0
  let ppdaCategory :=
    if ppda < 8 then "very_high"
    else if ppda < 12 then "high"
    else if ppda < 18 then "mid"
    else "low"
  let attThirdCategory :=
    if attThirdShare ≥ 0.40 then "very_high"
    else if attThirdShare ≥ 0.25 then "high"
    else if attThirdShare ≥ 0.15 then "mid"
    else "low"
  let finalCategory :=
    if pressingPriority attThirdCategory ≤ pressingPriority ppdaCategory
    then ppdaCategory else attThirdCategory
  if finalCategory = "very_high" then "Very High Press"
  else if finalCategory = "high" then "High Press"
  else if finalCategory = "mid" then "Mid Press"
  else if finalCategory = "low" then "Low Press"
  else "Mid Press"

/-- `categorize_block`: single threshold chain on `block_height_x`
(default 60). -/
def categorizeBlock (row : CatRow) (thresholds : Thresholds) : String :=
  let blockHeight := row.blockHeightX.getD 60
  if blockHeight ≥ 70 then "High Block"
  else if blockHeight ≥ 45 then "Mid Block"
  else "Low Block"

/-- `categorize_possession_directness` (defaults 0.5/0.5). -/
def categorizePossessDir (row : CatRow) (thresholds : Thresholds) : String :=
  let possession := row.possessionShare.getD 0.5
  let directness := row.directness.getD 0.5
  let possessionCategory :=
    if possession ≥ 0.55 then "possession_based"
    else if possession ≥ 0.45 then "balanced"
    else "direct"
  let directnessCategory :=
    if directness ≥ 0.60 then "direct"
    else if directness ≥ 0.40 then "balanced"
    else "possession_based"
  let finalCategory :=
    if possessionCategory = "possession_based" ∧ directnessCategory = "direct" then
      "balanced"
    else if possessionCategory = "direct" ∧ directnessCategory = "possession_based" then
      "balanced"
    else possessionCategory
  if finalCategory = "possession_based" then "Possession-Based"
  else if finalCategory = "balanced" then "Balanced"
  else if finalCategory = "direct" then "Direct"
  else "Balanced"

/-- `categorize_width` (defaults wing 0.67, center 0.33; `cross_share` is read
but unused by the branches). -/
def categorizeWidth (row : CatRow) (thresholds : Thresholds) : String :=
  let wingShare := row.wingShare.getD 0.67
  let centerShare := row.laneCenterShare.getD 0.33
  if wingShare ≥ 0.75 then "Wing Overload"
  else if wingShare < 0.60 ∧ centerShare ≥ 0.30 then "Central Focus"
  else "Balanced Channels"

/-- `categorize_transition`: four bands on `counter_rate` (default 0). -/
def categorizeTransition (row : CatRow) (thresholds : Thresholds) : String :=
  let counterRate := row.counterRate.getD 0
  if counterRate ≥ 0.25 then "Very High Transition"
  else if counterRate ≥ 0.15 then "High Transition"
  else if counterRate ≥ 0.10 then "Medium Transition"
  else "Low Transition"

/-- `categorize_overlays`: the five overlay checks, appended in source
order. -/
def categorizeOverlays (row : CatRow) (thresholds : Thresholds) : List String :=
  let crossShare := row.crossShare.getD 0.05
  let foulsCommitted := row.foulsCommitted.getD 15
  let foulShareAttThird := row.foulShareAttThird.getD 0
  let laneCenterShare := row.laneCenterShare.getD 0.33
  let foulShareDefThird := row.foulShareDefThird.getD 0.33
  (if crossShare ≥ 0.05 then ["Cross-Heavy"] else [])
    ++ (if foulsCommitted ≤ 9 then ["Set-Piece Focus"] else [])
    ++ (if foulShareAttThird ≥ 0.10 then ["High Press Tactical Stops"] else [])
    ++ (if laneCenterShare ≥ 0.30 then ["Central Leaning"] else [])
    ++ (if foulShareDefThird ≥ 0.55 then ["Sustained Low Block"] else [])

/-- The six tag columns produced by `attach_style_tags` for one row. -/
structure StyleTags where
  catPressing : String
  catBlock : String
  catPossessDir : String
  catWidth : String
  catTransition : String
  catOverlays : List String
deriving Repr, DecidableEq

/-- `attach_style_tags` for one row: apply all six categorizers with the
thresholds taken from the configuration. -/
def attachStyleTags (row : CatRow) (thresholds : Thresholds) : StyleTags :=
  ⟨categorizePressing row thresholds, categorizeBlock row thresholds,
   categorizePossessDir row thresholds, categorizeWidth row thresholds,
   categorizeTransition row thresholds, categorizeOverlays row thresholds⟩

/-- C6 counterexample: there is **no** row and pair of threshold
configurations under which categorization differs — the axis tags and overlay
set do not depend on the thresholds argument at all, because every
`categorize_*` function ignores it. -/
theorem C6_counterexample :
    ¬ ∃ (row : CatRow) (t1 t2 : Thresholds),
      attachStyleTags row t1 ≠ attachStyleTags row t2 := by
  rintro ⟨row, t1, t2, h⟩
  exact h rfl

/-- C6 (amended): the categorization thresholds are hardcoded constants, not
configuration data: the axis and overlay categorization functions accept the
thresholds object passed to the call but never read it, so categorization
output is identical under any two threshold configurations — shown both in
general and at a concrete row under the (mutually different) default
configuration and the empty configuration. -/
theorem C6_thresholds_ignored :
    (∀ (row : CatRow) (t1 t2 : Thresholds),
        attachStyleTags row t1 = attachStyleTags row t2) ∧
      defaultArchetypeConfig ≠ ⟨[]⟩ ∧
      attachStyleTags {crossShare := some 0.06}
          defaultArchetypeConfig
        = attachStyleTags {crossShare := some 0.06} ⟨[]⟩ := by
  refine ⟨fun _ _ _ => rfl, ?_, rfl⟩
  intro h
  have h2 := congrArg Thresholds.entries h
  simp [defaultArchetypeConfig] at h2

/-! ## Archetype derivation (src/reader/archetypes.py) -/

/-- A row as read by `derive_archetype` via `row.get(...)`: any tag field may
be missing (`None`). -/
structure ArchRow where
  catPressing : Option String := none
  catBlock : Option String := none
  catPossessDir : Option String := none
  catWidth : Option String := none
  catTransition : Option String := none
  catOverlays : Option (List String) := none
deriving Repr, DecidableEq

/-- A whitespace character as stripped by Python's `str.strip()`. -/
def isSpaceChar (c : Char) : Bool :=
  c = ' ' ∨ c = '\t' ∨ c = '\n' ∨ c = '\r'

/-- Python `str.strip()`: drop leading and trailing whitespace. -/
def pyStrip (s : String) : String :=
  ⟨((s.data.dropWhile isSpaceChar).reverse.dropWhile isSpaceChar).reverse⟩

/-- The `elif` core-rule cascade of `derive_archetype` (first match wins),
evaluated after the pressing tag has been normalized. -/
def deriveCore (p b d t : String) : String :=
  if p = "Low Press" ∧ b = "Low Block" ∧ t = "High Transition" then
    "Low-Block Counter"
  else if p = "Low Press" ∧ b = "Low Block" then
    "Low-Block Contain"
  else if p = "High Press" ∧ b = "High Block" ∧ d = "Possession-Based" then
    "High-Press Possession"
  else if p = "High Press" ∧ b = "High Block" ∧ (d = "Direct" ∨ t = "High Transition") then
    "High-Press Direct"
  else if p = "Mid Press" ∧ b = "Mid Block" ∧ d = "Possession-Based" then
    "Mid-Block Possession"
  else if p = "Mid Press" ∧ b = "Mid Block" then
    "Mid-Block Balanced"
  else
    "Mid-Block Balanced"

/-- `derive_archetype`: normalize missing fields to `""` and strip them,
rewrite `Very High Press` to `High Press`, run the core cascade, then append
the suffixes in source order. -/
def deriveArchetype (row : ArchRow) : String :=
  let p0 := pyStrip (row.catPressing.getD "")
  let p := if p0 = "Very High Press" then "High Press" else p0
  let b := pyStrip (row.catBlock.getD "")
  let d := pyStrip (row.catPossessDir.getD "")
  let w := pyStrip (row.catWidth.getD "")
  let t := pyStrip (row.catTransition.getD "")
  let overlays := (row.catOverlays.getD [])
  let core := deriveCore p b d t
  let suffixes :=
    (if w = "Wing Overload" ∧ overlays.contains "Cross-Heavy" then
        ["Wing Overload Crossers"] else [])
      ++ (if w = "Central Focus" ∧ d = "Possession-Based" then
        ["Central Combinational"] else [])
      ++ (if overlays.contains "Set-Piece Focus" then ["Set-Piece Focus"] else [])
  if suffixes.isEmpty then core
  else core ++ " + " ++ String.intercalate " + " suffixes

/-- C9: the row tagged {Very High Press, High Block, Possession-Based,
Balanced Channels, Low Transition, no overlays} derives exactly the string
"High-Press Possession": the pressing tag is normalized to High Press before
the first-match-wins cascade, and no suffix is appended. -/
theorem C9_very_high_press_normalization :
    deriveArchetype
        { catPressing := some "Very High Press", catBlock := some "High Block",
          catPossessDir := some "Possession-Based",
          catWidth := some "Balanced Channels",
          catTransition := some "Low Transition", catOverlays := some [] }
      = "High-Press Possession" := by
  decide

/-- C10: a row with `counter_rate ≥ 0.25` is tagged exactly
"Very High Transition"; the transition tag is not normalized before archetype
resolution, so with Low Press and Low Block the core cascade yields
"Low-Block Contain" and never "Low-Block Counter" — the counter core label
requires the transition tag to be exactly "High Transition", which is
assigned iff `counter_rate ∈ [0.15, 0.25)`. -/
theorem C10_very_high_transition_not_counter (row : CatRow) (cfg : Thresholds)
    (rate : ℚ) (d t' : String) (hrow : row.counterRate = some rate) :
    (1 / 4 ≤ rate →
        categorizeTransition row cfg = "Very High Transition" ∧
          deriveCore "Low Press" "Low Block" d (categorizeTransition row cfg)
            = "Low-Block Contain") ∧
      (deriveCore "Low Press" "Low Block" d t' = "Low-Block Counter" ↔
        t' = "High Transition") ∧
      (categorizeTransition row cfg = "High Transition" ↔
        3 / 20 ≤ rate ∧ rate < 1 / 4) := by
  have hct : categorizeTransition row cfg
      = (if rate ≥ 0.25 then "Very High Transition"
        else if rate ≥ 0.15 then "High Transition"
        else if rate ≥ 0.10 then "Medium Transition"
        else "Low Transition") := by
    rw [categorizeTransition, hrow]
    rfl
  refine ⟨?_, ?_, ?_⟩
  · intro h
    have hvh : categorizeTransition row cfg = "Very High Transition" := by
      rw [hct, if_pos (by norm_num at h ⊢; linarith)]
    refine ⟨hvh, ?_⟩
    rw [hvh, deriveCore, if_neg (by simp), if_pos (by simp)]
  · constructor
    · intro h
      rw [deriveCore] at h
      split_ifs at h with h1 h2
      · exact h1.2.2
      · exact absurd h (by simp)
      all_goals simp_all
    · intro h
      rw [deriveCore, if_pos ⟨rfl, rfl, h⟩]
  · rw [hct]
    split_ifs with h1 h2 h3
    · constructor
      · intro h
        exact absurd h (by simp)
      · intro h
        norm_num at h1
        linarith [h.2]
    · constructor
      · intro _
        norm_num at h1 h2
        exact ⟨by linarith, by linarith⟩
      · intro _
        rfl
    · constructor
      · intro h
        exact absurd h (by simp)
      · intro h
        norm_num at h2
        linarith [h.1]
    · constructor
      · intro h
        exact absurd h (by simp)
      · intro h
        norm_num at h2
        linarith [h.1]

/-- Witness for `C10_very_high_transition_not_counter` at
`counter_rate = 0.3`: the tag is Very High Transition and the core is
Low-Block Contain. -/
theorem C10_very_high_transition_not_counter_witness :
    categorizeTransition {counterRate := some (3 / 10)} defaultArchetypeConfig
        = "Very High Transition" ∧
      deriveCore "Low Press" "Low Block" "Balanced"
          (categorizeTransition {counterRate := some (3 / 10)}
            defaultArchetypeConfig)
        = "Low-Block Contain" :=
  (C10_very_high_transition_not_counter {counterRate := some (3 / 10)}
    defaultArchetypeConfig (3 / 10) "Balanced" "High Transition" rfl).1
    (by norm_num)

end StatsbombReader
